import Mathlib

/-!
Formal model of the NutriChef-em-Casa backend request pipeline and frontend
request queue, embedded from the JavaScript/TypeScript sources:

* `backend/controllers/recipeController.js` — `generateRecipe`, and the
  middleware module concatenated with it (`limiter`, `verifyToken`, `isAdmin`).
* the recipe router (`router.post('/generate')`, `router.get('/')`) with its
  `recipeGenerationLimiter`.
* `backend/server.js` — the general `/api` rate limiter.
* `src/FitRecipeApp.tsx` — `SecureRecipeAPI.executeQueue` / `queueRequest`.

JavaScript request-body values are modelled by the inductive `JVal` (numbers as
integers; the claims under study never depend on non-integral numerics), with
explicit truthiness. Express middleware outcomes are modelled as explicit
result structures. The external `jsonwebtoken` and `@google/generative-ai`
dependencies are modelled by symbolic tokens and an explicit provider-outcome
parameter.
-/

namespace NutriChef

/-- JSON-ish JavaScript value as it appears in a parsed request body.
Numbers are modelled as integers. -/
inductive JVal where
  | null
  | bool (b : Bool)
  | num (n : Int)
  | str (s : String)
  | arr (elems : List JVal)

/-- JavaScript truthiness of a possibly-absent value:
`undefined`, `null`, `false`, `0` and `""` are falsy, everything else truthy. -/
def truthy : Option JVal → Bool
  | none => false
  | some .null => false
  | some (.bool b) => b
  | some (.num n) => !(n == 0)
  | some (.str s) => !(s == "")
  | some (.arr _) => true

/-- `Array.isArray(v)` on a possibly-absent value. -/
def isArray : Option JVal → Bool
  | some (.arr _) => true
  | _ => false

/-- The element list of an array value (only ever read behind `isArray`). -/
def arrElems : Option JVal → List JVal
  | some (.arr xs) => xs
  | _ => []

/-- `typeof v === 'string'` for an element. -/
def isStr : JVal → Bool
  | .str _ => true
  | _ => false

/-- The underlying string of a string element (only read behind `isStr`). -/
def strVal : JVal → String
  | .str s => s
  | _ => ""

/-- `typeof v === 'string'` on a possibly-absent value. -/
def isStrOpt : Option JVal → Bool
  | some (.str _) => true
  | _ => false

/-- `typeof v === 'number'` on a possibly-absent value. -/
def isNumOpt : Option JVal → Bool
  | some (.num _) => true
  | _ => false

/-- The numeric value of a number (only read behind `isNumOpt`). -/
def numValOpt : Option JVal → Int
  | some (.num n) => n
  | _ => 0

/-- JS `String.prototype.trim`, modelled over the character list. -/
def jsTrim (s : String) : String :=
  String.mk (((s.toList.dropWhile Char.isWhitespace).reverse.dropWhile
    Char.isWhitespace).reverse)

/-- The haystack begins with the needle (both as character lists). -/
def charsStart : List Char → List Char → Bool
  | [], _ => true
  | _ :: _, [] => false
  | a :: t1, b :: t2 => a == b && charsStart t1 t2

/-- The needle occurs somewhere in the haystack (character lists). -/
def charsContain (needle : List Char) : List Char → Bool
  | [] => needle.isEmpty
  | b :: t2 => charsStart needle (b :: t2) || charsContain needle t2

/-- JS `s.includes(sub)`. -/
def strIncludes (s sub : String) : Bool :=
  charsContain sub.toList s.toList

/-- Truthiness of a possibly-absent environment-variable string:
unset and `""` are falsy. -/
def truthyStr : Option String → Bool
  | none => false
  | some s => !(s == "")

/-! ## Controller `generateRecipe` (backend/controllers/recipeController.js) -/

/-- The request body fields destructured by the controller `generateRecipe`
(`const { ingredients, cuisineType, dietaryRestrictions, servings,
cookingTime } = req.body`); `none` models an absent property. -/
structure GenBody where
  ingredients : Option JVal
  cuisineType : Option JVal
  dietaryRestrictions : Option JVal
  servings : Option JVal
  cookingTime : Option JVal

/-- A JavaScript error thrown by the provider call: its `message` and `code`
properties (absent properties are `none`). -/
structure JsError where
  message : Option String
  code : Option String

/-- Outcome of `await model.generateContent(prompt)` followed by
`response.text()`: either a text (possibly empty) or a thrown error. -/
inductive ProviderOutcome where
  | text (s : String)
  | jsError (e : JsError)

/-- Observable result of the controller `generateRecipe`: HTTP status, the
`success` flag, the `message` and `error` body fields, and whether the
external Gemini call was attempted. -/
structure GenResult where
  status : Nat
  success : Bool
  message : Option String
  errorField : Option String
  providerCalled : Bool
  deriving DecidableEq

/-- First ingredient check of both generation endpoints:
`!ingredients || !Array.isArray(ingredients) || ingredients.length === 0`. -/
def badIngredientsShape (v : Option JVal) : Bool :=
  !(truthy v) || !(isArray v) || (arrElems v).length == 0

/-- Second ingredient check of the controller endpoint:
`ingredients.some(i => typeof i !== 'string' || i.trim() === '')`. -/
def hasBlankIngredient (v : Option JVal) : Bool :=
  (arrElems v).any (fun i => !(isStr i) || jsTrim (strVal i) == "")

/-- The controller's `catch` block: maps a thrown provider error to a
response, mirroring recipeController.js lines 124–163. -/
def mapGenError (nodeEnv : Option String) (e : JsError) : GenResult :=
  if truthyStr e.message && strIncludes (e.message.getD "") "API key" then
    { status := 401, success := false,
      message := some "Invalid or expired Gemini API key",
      errorField := some "Authentication failed", providerCalled := true }
  else if truthyStr e.message && strIncludes (e.message.getD "") "quota" then
    { status := 429, success := false,
      message := some "API quota exceeded. Please try again later",
      errorField := some "Rate limit exceeded", providerCalled := true }
  else if e.code == some "ECONNREFUSED" || e.code == some "ETIMEDOUT" then
    { status := 503, success := false,
      message := some "Service temporarily unavailable. Please try again later",
      errorField := some "Connection error", providerCalled := true }
  else
    { status := 500, success := false,
      message := some "An error occurred while generating the recipe",
      errorField := if nodeEnv == some "development" then e.message else none,
      providerCalled := true }

/-- The controller `generateRecipe` handler (recipeController.js lines
11–164). `geminiApiKey` and `nodeEnv` model `process.env.GEMINI_API_KEY` and
`process.env.NODE_ENV`; `outcome` models what the single external Gemini call
would produce if reached. The prompt string built on lines 68–94 has no
observable effect on the response shape and is not tracked. -/
def generateRecipe (geminiApiKey nodeEnv : Option String)
    (outcome : ProviderOutcome) (body : GenBody) : GenResult :=
  if badIngredientsShape body.ingredients then
    { status := 400, success := false,
      message := some "Ingredients array is required and must not be empty",
      errorField := none, providerCalled := false }
  else if hasBlankIngredient body.ingredients then
    { status := 400, success := false,
      message := some "All ingredients must be non-empty strings",
      errorField := none, providerCalled := false }
  else if truthy body.cuisineType && !(isStrOpt body.cuisineType) then
    { status := 400, success := false,
      message := some "Cuisine type must be a string",
      errorField := none, providerCalled := false }
  else if truthy body.dietaryRestrictions && !(isArray body.dietaryRestrictions) then
    { status := 400, success := false,
      message := some "Dietary restrictions must be an array",
      errorField := none, providerCalled := false }
  else if truthy body.servings &&
      (!(isNumOpt body.servings) || decide (numValOpt body.servings < 1)) then
    { status := 400, success := false,
      message := some "Servings must be a positive number",
      errorField := none, providerCalled := false }
  else if truthy body.cookingTime &&
      (!(isNumOpt body.cookingTime) || decide (numValOpt body.cookingTime < 0)) then
    { status := 400, success := false,
      message := some "Cooking time must be a non-negative number",
      errorField := none, providerCalled := false }
  else if !(truthyStr geminiApiKey) then
    { status := 500, success := false,
      message := some "Gemini API key is not configured",
      errorField := none, providerCalled := false }
  else
    match outcome with
    | .jsError e => mapGenError nodeEnv e
    | .text s =>
      if s == "" then
        { status := 500, success := false,
          message := some "Failed to generate recipe from Gemini API",
          errorField := none, providerCalled := true }
      else
        { status := 200, success := true, message := none,
          errorField := none, providerCalled := true }

/-! ## Router endpoints (the recipes route module) -/

/-- The request body fields destructured by the router `POST /generate`
handler, before defaults are applied; `none` models an absent property. -/
structure RouterBody where
  ingredients : Option JVal
  dietaryRestrictions : Option JVal
  servings : Option JVal
  cookingTimePreference : Option JVal
  cuisineType : Option JVal

/-- The stub recipe object built by the router `POST /generate` handler:
the fields the claims observe (constant fields like the name, description,
instructions and zeroed nutrition info are kept as literals). -/
structure RouterRecipe where
  name : String
  ingredientNames : List JVal
  estimatedCookingTime : Nat
  difficulty : String
  servings : JVal
  cuisineType : JVal
  dietaryRestrictions : JVal

/-- Observable result of a router handler: HTTP status, `success` flag,
`message`, and for `POST /generate` the stub recipe in `data`. -/
structure RouterResult where
  status : Nat
  success : Bool
  message : Option String
  recipe : Option RouterRecipe

/-- JS `ToNumber` coercion used implicitly by `<` / `>` comparisons, for the
value shapes reachable here: `null → 0`, booleans to 0/1, numbers to
themselves; strings parse (blank → 0, non-numeric → NaN = `none`); arrays are
left unmodelled as NaN. -/
def toNumberJS : JVal → Option Int
  | .null => some 0
  | .bool b => some (if b then 1 else 0)
  | .num n => some n
  | .str s => if jsTrim s == "" then some 0 else (jsTrim s).toInt?
  | .arr _ => none

/-- JS `v < n` with NaN comparing false. -/
def jsLtNum (v : JVal) (n : Int) : Bool :=
  match toNumberJS v with
  | some m => decide (m < n)
  | none => false

/-- JS `v > n` with NaN comparing false. -/
def jsGtNum (v : JVal) (n : Int) : Bool :=
  match toNumberJS v with
  | some m => decide (m > n)
  | none => false

/-- `['quick', 'medium', 'long'].includes(v)` — strict equality, so any
non-string fails. -/
def prefAllowed : JVal → Bool
  | .str s => s == "quick" || s == "medium" || s == "long"
  | _ => false

/-- `cookingTimePreference === 'quick' ? 15 : cookingTimePreference ===
'medium' ? 30 : 60`. -/
def prefMinutes : JVal → Nat
  | .str s => if s == "quick" then 15 else if s == "medium" then 30 else 60
  | _ => 60

/-- The effective `cookingTimePreference` after the destructuring default
`= 'medium'` (applied only when the property is absent). -/
def effPref (body : RouterBody) : JVal :=
  body.cookingTimePreference.getD (.str "medium")

/-- The router `POST /api/recipes/generate` handler (router lines 46–124):
destructuring defaults, the three validations, then the stub recipe. -/
def routerGenerate (body : RouterBody) : RouterResult :=
  let dRestrictions := body.dietaryRestrictions.getD (.arr [])
  let servings := body.servings.getD (.num 1)
  let pref := effPref body
  let cuisine := body.cuisineType.getD (.str "any")
  if badIngredientsShape body.ingredients then
    { status := 400, success := false,
      message := some "Invalid input: ingredients array is required and must not be empty",
      recipe := none }
  else if jsLtNum servings 1 || jsGtNum servings 20 then
    { status := 400, success := false,
      message := some "Invalid input: servings must be between 1 and 20",
      recipe := none }
  else if !(prefAllowed pref) then
    { status := 400, success := false,
      message := some "Invalid input: cookingTimePreference must be quick, medium, or long",
      recipe := none }
  else
    { status := 200, success := true, message := none,
      recipe := some
        { name := "Generated Recipe",
          ingredientNames := arrElems body.ingredients,
          estimatedCookingTime := prefMinutes pref,
          difficulty := "medium",
          servings := servings,
          cuisineType := cuisine,
          dietaryRestrictions := dRestrictions } }

/-- JS `parseInt` on a string: skip leading whitespace, optional sign, then
the longest prefix of decimal digits; no digits → NaN (`none`). -/
def parseIntJS (s : String) : Option Int :=
  let cs := s.toList.dropWhile Char.isWhitespace
  let signed : Int × List Char :=
    match cs with
    | '-' :: r => (-1, r)
    | '+' :: r => (1, r)
    | r => (1, r)
  let ds := signed.2.takeWhile Char.isDigit
  if ds.isEmpty then none
  else some (signed.1 * ds.foldl (fun a c => a * 10 + ((c.toNat : Int) - 48)) 0)

/-- `Math.min(x, 100)` with NaN propagating. -/
def jsMinHundred : Option Int → Option Int
  | some n => some (min n 100)
  | none => none

/-- Observable result of the router `GET /api/recipes` handler: always a 200
envelope with an empty data list and a pagination block (`none` models NaN
from `parseInt`). -/
structure ListResult where
  status : Nat
  success : Bool
  paginationLimit : Option Int
  paginationOffset : Option Int
  total : Nat
  deriving DecidableEq

/-- The router `GET /api/recipes` handler (router lines 164–187):
`limit = Math.min(parseInt(limit), 100)`, `offset: parseInt(offset)`, with
destructuring defaults `limit = 20`, `offset = 0` (numbers, which `parseInt`
coerces back unchanged). -/
def listRecipes (limitQ offsetQ : Option String) : ListResult :=
  let limRaw : Option Int :=
    match limitQ with
    | none => some 20
    | some s => parseIntJS s
  let offRaw : Option Int :=
    match offsetQ with
    | none => some 0
    | some s => parseIntJS s
  { status := 200, success := true,
    paginationLimit := jsMinHundred limRaw,
    paginationOffset := offRaw,
    total := 0 }

/-! ## Rate limiters (`express-rate-limit` fixed-window counters) -/

/-- The decoded JWT claim set attached to `req.user`. -/
structure UserClaims where
  role : Option String
  exp : Option Nat
  deriving DecidableEq

/-- The request fields the limiter configurations read: the client IP and the
(possibly absent) authenticated identity `req.user`. -/
structure ApiRequest where
  ip : String
  user : Option UserClaims
  deriving DecidableEq

/-- An `express-rate-limit` configuration: window length, hit ceiling, skip
predicate, and the status its handler sends once the ceiling is exceeded. -/
structure RateLimitCfg where
  windowMs : Nat
  max : Nat
  skip : ApiRequest → Bool
  statusOnLimit : Nat

/-- The router module's `recipeGenerationLimiter` (router lines 7–17):
ceiling 10 per 15 minutes, skipping requests whose `req.user` exists and has
`role === 'admin'`; rejections use the library default 429. -/
def recipeGenerationLimiter : RateLimitCfg :=
  { windowMs := 15 * 60 * 1000, max := 10,
    skip := fun req =>
      match req.user with
      | some u => u.role == some "admin"
      | none => false,
    statusOnLimit := 429 }

/-- The middleware module's `limiter` (concatenated with
recipeController.js, lines 173–194): ceiling 10 per 15 minutes, a skip
predicate that returns `false` for every request, and a custom handler that
sends 429 with `success: false`. -/
def limiter : RateLimitCfg :=
  { windowMs := 15 * 60 * 1000, max := 10,
    skip := fun _ => false,
    statusOnLimit := 429 }

/-- The `server.js` general `/api` limiter (lines 34–41): ceiling 100 per
15 minutes, no `skip` option, so the library default (never skip) applies. -/
def apiLimiter : RateLimitCfg :=
  { windowMs := 15 * 60 * 1000, max := 100,
    skip := fun _ => false,
    statusOnLimit := 429 }

/-- Per-window hit count for a key in the limiter's in-memory store. -/
def lookupCount (counts : List (String × Nat)) (k : String) : Nat :=
  match counts.find? (fun p => p.1 == k) with
  | some p => p.2
  | none => 0

/-- Update the stored hit count for a key. -/
def setCount : List (String × Nat) → String → Nat → List (String × Nat)
  | [], k, c => [(k, c)]
  | (k2, c2) :: rest, k, c =>
    if k2 == k then (k, c) :: rest else (k2, c2) :: setCount rest k c

/-- One request through a limiter within the current fixed window: a skipped
request is not counted and passes; otherwise the key's hit count is
incremented and the request is rejected when the count exceeds the ceiling.
Returns the updated store and whether the request was rejected. -/
def limiterStep (cfg : RateLimitCfg) (counts : List (String × Nat))
    (req : ApiRequest) : List (String × Nat) × Bool :=
  if cfg.skip req then (counts, false)
  else
    let c := lookupCount counts req.ip + 1
    (setCount counts req.ip c, decide (c > cfg.max))

/-- A sequence of requests through a limiter within one fixed window,
returning the rejection flag of each request in order. -/
def runLimiter (cfg : RateLimitCfg) (counts : List (String × Nat)) :
    List ApiRequest → List Bool
  | [] => []
  | r :: rs =>
    let step := limiterStep cfg counts r
    step.2 :: runLimiter cfg step.1 rs

/-! ## Auth middleware `verifyToken` (middleware module lines 202–223) -/

/-- A symbolic bearer token: either a malformed string or a structured JWT
recording the payload it carries and the secret/payload its signature was
computed over (a signature is valid exactly when it was produced over the
same payload with the verifying secret). Models the external `jsonwebtoken`
dependency. -/
inductive JwtToken where
  | malformed (raw : String)
  | signed (payload : UserClaims) (sigSecret : String) (sigPayload : UserClaims)
  deriving DecidableEq

/-- `jwt.verify(token, secret)` at (integer) time `now`: malformed tokens and
bad signatures throw; a good signature with `exp` in the past throws; a good
unexpired signature returns the decoded payload. Models the external
`jsonwebtoken` dependency. -/
def jwtVerify (now : Nat) (secret : String) (t : JwtToken) :
    Except String UserClaims :=
  match t with
  | .malformed _ => .error "jwt malformed"
  | .signed p k q =>
    if k == secret && decide (q = p) then
      match p.exp with
      | some e => if e ≤ now then .error "jwt expired" else .ok p
      | none => .ok p
    else .error "invalid signature"

/-- JS `s.split(' ')` over the character list: split at every single space
(`"a  b"` → `["a", "", "b"]`, `""` → `[""]`). -/
def wordsBySpace : List Char → List (List Char)
  | [] => [[]]
  | c :: rest =>
    if c == ' ' then [] :: wordsBySpace rest
    else
      match wordsBySpace rest with
      | [] => [[c]]
      | w :: ws => (c :: w) :: ws

/-- JS `s.split(' ')`. -/
def splitOnSpace (s : String) : List String :=
  (wordsBySpace s.toList).map String.mk

/-- `req.headers.authorization?.split(' ')[1]` followed by the `!token`
falsiness check: absent header, a header with no second word, and an empty
second word all count as "no token". -/
def extractToken (authorization : Option String) : Option String :=
  match authorization with
  | none => none
  | some s =>
    match (splitOnSpace s).get? 1 with
    | none => none
    | some t => if t == "" then none else some t

/-- `process.env.JWT_SECRET || 'your-secret-key'`. -/
def effectiveSecret (jwtSecretEnv : Option String) : String :=
  match jwtSecretEnv with
  | some s => if s == "" then "your-secret-key" else s
  | none => "your-secret-key"

/-- Outcome of an Express middleware: either a response is sent (and the
chain stops: the route handler is never invoked) or control continues to the
next handler with `req.user` set to the decoded claims. -/
inductive AuthOutcome where
  | respond (status : Nat) (success : Bool) (message : String)
  | next (user : UserClaims)
  deriving DecidableEq

/-- The `verifyToken` middleware (middleware module lines 202–223).
`decodeTok` maps the header's token string to the symbolic token it denotes
(the inverse of JWT serialization). -/
def verifyToken (jwtSecretEnv : Option String) (now : Nat)
    (decodeTok : String → JwtToken) (authorization : Option String) :
    AuthOutcome :=
  match extractToken authorization with
  | none => .respond 401 false "No token provided. Authorization denied."
  | some tstr =>
    match jwtVerify now (effectiveSecret jwtSecretEnv) (decodeTok tstr) with
    | .ok decoded => .next decoded
    | .error _ => .respond 401 false "Token is not valid."

/-! ## Frontend `SecureRecipeAPI` queue (src/FitRecipeApp.tsx lines 49–163) -/

/-- A queued deferred request: an identifier and whether its promise fulfils
(`true`) or rejects (`false`) when awaited. -/
structure QItem where
  id : Nat
  succeeds : Bool
  deriving DecidableEq

/-- Events observable while the queue drains: a request starts (is awaited),
settles, or has its rejection logged by the `catch` block. -/
inductive QEvent where
  | start (id : Nat)
  | settle (id : Nat) (ok : Bool)
  | logError (id : Nat)
  deriving DecidableEq

/-- The `executeQueue` drain loop: while the queue is non-empty, `shift` the
front item, await it (start then settle), log a rejection, and continue with
the rest. The `isProcessing` flag guarantees a single drain runs at a time,
so the loop is this sequential recursion. -/
def executeQueue : List QItem → List QEvent
  | [] => []
  | i :: rest =>
    QEvent.start i.id :: QEvent.settle i.id i.succeeds ::
      ((if i.succeeds then [] else [QEvent.logError i.id]) ++ executeQueue rest)

/-- The ids of the requests started, in order of starting. -/
def startedIds (events : List QEvent) : List Nat :=
  events.filterMap (fun e =>
    match e with
    | .start i => some i
    | _ => none)

/-- Number of `start` events in a trace segment. -/
def startTally (events : List QEvent) : Nat :=
  events.countP (fun e =>
    match e with
    | .start _ => true
    | _ => false)

/-- Number of `settle` events in a trace segment. -/
def settleTally (events : List QEvent) : Nat :=
  events.countP (fun e =>
    match e with
    | .settle _ _ => true
    | _ => false)

/-! ## Middleware order on the router generation route -/

/-- The kinds of middleware appearing in this codebase's chains. -/
inductive MwStage where
  | rateLimitStage
  | verifyTokenStage
  | handlerStage
  deriving DecidableEq

/-- The middleware chain of `router.post('/generate',
recipeGenerationLimiter, async (req, res) => ...)` (router line 46): the
rate limiter, then the route handler — no token verification anywhere. -/
def generatePipeline : List MwStage :=
  [.rateLimitStage, .handlerStage]

/-- A request as it enters the router's generate chain: no earlier middleware
has attached an identity, so `req.user` is `undefined`. -/
def routerEntryRequest (ip : String) : ApiRequest :=
  { ip := ip, user := none }

/-! ## Helper lemmas about the limiter store -/

lemma lookupCount_nil (k : String) : lookupCount [] k = 0 := rfl

lemma lookupCount_single (k : String) (b : Nat) : lookupCount [(k, b)] k = b := by
  simp [lookupCount, List.find?]

lemma setCount_nil (k : String) (c : Nat) : setCount [] k c = [(k, c)] := rfl

lemma setCount_single (k : String) (b c : Nat) :
    setCount [(k, b)] k c = [(k, c)] := by
  simp [setCount]

lemma limiterStep_skip (cfg : RateLimitCfg) (counts : List (String × Nat))
    (req : ApiRequest) (h : cfg.skip req = true) :
    limiterStep cfg counts req = (counts, false) := by
  simp [limiterStep, h]

lemma limiterStep_counted (cfg : RateLimitCfg) (counts : List (String × Nat))
    (req : ApiRequest) (h : cfg.skip req = false) :
    limiterStep cfg counts req =
      (setCount counts req.ip (lookupCount counts req.ip + 1),
       decide (lookupCount counts req.ip + 1 > cfg.max)) := by
  simp [limiterStep, h]

/-- Within one window, a run of identical non-skipped requests starting from
a store holding `base` hits for their IP produces the rejection flags
`base + i + 1 > max` in order. -/
lemma runLimiter_replicate_same (cfg : RateLimitCfg) (req : ApiRequest)
    (h : cfg.skip req = false) :
    ∀ (n base : Nat),
      runLimiter cfg [(req.ip, base)] (List.replicate n req) =
        (List.range n).map (fun i => decide (base + i + 1 > cfg.max)) := by
  intro n
  induction n with
  | zero => intro base; simp [runLimiter]
  | succ m ih =>
    intro base
    rw [List.replicate_succ]
    simp only [runLimiter, limiterStep, h, Bool.false_eq_true, if_false,
      lookupCount_single, setCount_single]
    rw [ih (base + 1), List.range_succ_eq_map]
    simp only [List.map_cons, List.map_map]
    refine congrArg₂ List.cons ?_ ?_
    · exact decide_eq_decide.mpr (by omega)
    · refine List.map_congr_left (fun i _ => ?_)
      exact decide_eq_decide.mpr (by omega)

/-- Same run starting from the empty store. -/
lemma runLimiter_replicate_formula (cfg : RateLimitCfg) (req : ApiRequest)
    (h : cfg.skip req = false) (n : Nat) :
    runLimiter cfg [] (List.replicate n req) =
      (List.range n).map (fun i => decide (i + 1 > cfg.max)) := by
  cases n with
  | zero => simp [runLimiter]
  | succ m =>
    rw [List.replicate_succ]
    simp only [runLimiter, limiterStep, h, Bool.false_eq_true, if_false,
      lookupCount_nil, setCount_nil]
    rw [runLimiter_replicate_same cfg req h m 1, List.range_succ_eq_map]
    simp only [List.map_cons, List.map_map]
    refine congrArg₂ List.cons ?_ ?_
    · exact decide_eq_decide.mpr (by omega)
    · refine List.map_congr_left (fun i _ => ?_)
      exact decide_eq_decide.mpr (by omega)

/-- A non-skipped identical run of `max + 1` requests is allowed `max` times
and rejected on the `(max+1)`-th request. -/
lemma runLimiter_ceiling (cfg : RateLimitCfg) (req : ApiRequest)
    (h : cfg.skip req = false) :
    runLimiter cfg [] (List.replicate (cfg.max + 1) req) =
      List.replicate cfg.max false ++ [true] := by
  rw [runLimiter_replicate_formula cfg req h, List.range_succ, List.map_append]
  refine congrArg₂ (· ++ ·) ?_ ?_
  · refine List.eq_replicate_iff.mpr ⟨by simp, ?_⟩
    intro b hb
    rw [List.mem_map] at hb
    obtain ⟨i, hi, rfl⟩ := hb
    rw [List.mem_range] at hi
    exact decide_eq_false (by omega)
  · simp

/-! ## The claims' ingredient-validity predicate -/

/-- The spec's notion of an invalid `ingredients` payload: missing, not a
list, empty, or containing a non-string or blank entry. -/
def ClaimBadIngredients (v : Option JVal) : Prop :=
  v = none ∨ isArray v = false ∨ arrElems v = [] ∨
    ∃ i ∈ arrElems v, isStr i = false ∨ jsTrim (strVal i) = ""

/-- The spec's shape-only part of ingredient invalidity: missing, not a
list, or empty. -/
def ShapeBadIngredients (v : Option JVal) : Prop :=
  v = none ∨ isArray v = false ∨ arrElems v = []

lemma shapeBad_check {v : Option JVal} (h : ShapeBadIngredients v) :
    badIngredientsShape v = true := by
  rcases h with h | h | h
  · subst h; rfl
  · simp [badIngredientsShape, h]
  · simp [badIngredientsShape, h]

lemma claimBad_checks {v : Option JVal} (h : ClaimBadIngredients v) :
    (badIngredientsShape v || hasBlankIngredient v) = true := by
  rcases h with h | h | h | ⟨i, hi, hbad⟩
  · subst h; rfl
  · simp [badIngredientsShape, h]
  · simp [badIngredientsShape, h]
  · have hb : hasBlankIngredient v = true := by
      unfold hasBlankIngredient
      rw [List.any_eq_true]
      refine ⟨i, hi, ?_⟩
      rcases hbad with h | h <;> simp [h]
    simp [hb]

/-! ## Helper lemmas about the frontend queue trace -/

lemma startedIds_executeQueue (q : List QItem) :
    startedIds (executeQueue q) = q.map QItem.id := by
  induction q with
  | nil => rfl
  | cons i rest ih =>
    cases h : i.succeeds <;>
      simp only [executeQueue, h, Bool.false_eq_true, if_false, if_true,
        List.singleton_append, List.nil_append, startedIds,
        List.filterMap_cons] <;>
      simp only [startedIds] at ih <;>
      rw [ih] <;> rfl

lemma logError_of_failed (q : List QItem) (i : QItem) (hi : i ∈ q)
    (hf : i.succeeds = false) : QEvent.logError i.id ∈ executeQueue q := by
  induction q with
  | nil => cases hi
  | cons j rest ih =>
    rcases List.mem_cons.mp hi with rfl | hmem
    · rw [executeQueue, hf]
      simp
    · rw [executeQueue]
      have hm := ih hmem
      simp [List.mem_cons, List.mem_append, hm]

lemma tallies_executeQueue (q : List QItem) :
    startTally (executeQueue q) = q.length ∧
    settleTally (executeQueue q) = q.length := by
  induction q with
  | nil => simp [startTally, settleTally, executeQueue]
  | cons i rest ih =>
    cases h : i.succeeds <;>
      simp only [executeQueue, h, Bool.false_eq_true, if_false, if_true,
        List.singleton_append, List.nil_append, startTally, settleTally,
        List.countP_cons, List.countP_append, List.length_cons] at ih ⊢ <;>
      simp <;> omega

/-- Every prefix of the drain trace has settled at most as many items as it
has started, and started at most one more than it has settled: at any moment
at most one request is in flight, and a request starts only after the
previous one settled. -/
lemma executeQueue_balance (q : List QItem) :
    ∀ pre : List QEvent, pre <+: executeQueue q →
      settleTally pre ≤ startTally pre ∧
      startTally pre ≤ settleTally pre + 1 := by
  induction q with
  | nil =>
    intro pre hp
    rw [show executeQueue [] = [] from rfl] at hp
    rw [List.prefix_nil.mp hp]
    simp [startTally, settleTally]
  | cons i rest ih =>
    intro pre hp
    cases pre with
    | nil => simp [startTally, settleTally]
    | cons e1 pre1 =>
      rw [executeQueue] at hp
      obtain ⟨rfl, hp1⟩ := List.cons_prefix_cons.mp hp
      cases pre1 with
      | nil => simp [startTally, settleTally, List.countP_cons]
      | cons e2 pre2 =>
        obtain ⟨rfl, hp2⟩ := List.cons_prefix_cons.mp hp1
        cases h : i.succeeds
        · rw [h] at hp2
          simp only [Bool.false_eq_true, if_false, List.singleton_append] at hp2
          cases pre2 with
          | nil => simp [startTally, settleTally, List.countP_cons]
          | cons e3 pre3 =>
            obtain ⟨rfl, hp3⟩ := List.cons_prefix_cons.mp hp2
            have hb := ih pre3 hp3
            simp only [startTally, settleTally, List.countP_cons] at hb ⊢
            simp only [if_true, if_false]
            omega
        · rw [h] at hp2
          simp only [if_true, List.nil_append] at hp2
          have hb := ih pre2 hp2
          simp only [startTally, settleTally, List.countP_cons] at hb ⊢
          simp only [if_true, if_false]
          omega

/-! ## Concrete inputs used by counterexamples and witnesses -/

/-- The payload `{ingredients: [" "]}`: a one-element list whose entry is a
blank string. -/
def blankIngredientBody : RouterBody :=
  { ingredients := some (.arr [.str " "]), dietaryRestrictions := none,
    servings := none, cookingTimePreference := none, cuisineType := none }

/-- A request carrying an authenticated admin identity. -/
def adminRequest : ApiRequest :=
  { ip := "203.0.113.7", user := some { role := some "admin", exp := none } }

/-- An unauthenticated request. -/
def plainRequest : ApiRequest :=
  { ip := "198.51.100.4", user := none }

/-! ## Claim theorems -/

/-- C1 (amended): whenever `ingredients` is missing, not a list, empty, or
contains a non-string or blank entry, the controller generation endpoint
responds 400 with `success: false` and never calls the external provider;
the router generation endpoint responds 400 in the missing / not-a-list /
empty cases (it does not check entries). -/
theorem c1_bad_ingredients_rejected :
    (∀ (key env : Option String) (outcome : ProviderOutcome) (body : GenBody),
      ClaimBadIngredients body.ingredients →
        (generateRecipe key env outcome body).status = 400 ∧
        (generateRecipe key env outcome body).success = false ∧
        (generateRecipe key env outcome body).providerCalled = false) ∧
    (∀ rbody : RouterBody, ShapeBadIngredients rbody.ingredients →
      (routerGenerate rbody).status = 400 ∧
      (routerGenerate rbody).success = false ∧
      (routerGenerate rbody).recipe = none) := by
  constructor
  · intro key env outcome body h
    have hb := claimBad_checks h
    unfold generateRecipe
    cases h1 : badIngredientsShape body.ingredients
    · rw [h1, Bool.false_or] at hb
      simp [hb]
    · simp
  · intro rbody h
    have hb := shapeBad_check h
    unfold routerGenerate
    simp [hb]

/-- C1 counterexample: the payload `{ingredients: [" "]}` has a blank entry,
yet the router generation endpoint serves it with a 200 success response
instead of a 400 bad request. -/
theorem c1_router_accepts_blank_entry :
    ClaimBadIngredients blankIngredientBody.ingredients ∧
    (routerGenerate blankIngredientBody).status = 200 ∧
    (routerGenerate blankIngredientBody).success = true := by
  refine ⟨?_, rfl, rfl⟩
  right; right; right
  refine ⟨.str " ", ?_, Or.inr (by decide)⟩
  show JVal.str " " ∈ [JVal.str " "]
  exact List.mem_singleton_self _

/-- C1 witness: the controller rejects the blank-entry payload with 400 and
no provider call. -/
theorem c1_witness :
    (generateRecipe (some "key") none (.text "a recipe")
        { ingredients := some (.arr [.str " "]), cuisineType := none,
          dietaryRestrictions := none, servings := none,
          cookingTime := none }).status = 400 ∧
    (generateRecipe (some "key") none (.text "a recipe")
        { ingredients := some (.arr [.str " "]), cuisineType := none,
          dietaryRestrictions := none, servings := none,
          cookingTime := none }).success = false ∧
    (generateRecipe (some "key") none (.text "a recipe")
        { ingredients := some (.arr [.str " "]), cuisineType := none,
          dietaryRestrictions := none, servings := none,
          cookingTime := none }).providerCalled = false :=
  c1_bad_ingredients_rejected.1 (some "key") none (.text "a recipe") _
    (Or.inr (Or.inr (Or.inr ⟨.str " ", List.mem_singleton_self _,
      Or.inr (by decide)⟩)))

/-- C2 (amended): each limiter counts per IP within a fixed 15-minute
window; on the generation route (ceiling 10) a non-skipped caller's 11th
request is rejected 429 after 10 allowed, and the `skip` predicate exempts a
request only in the router generation limiter and only when `req.user` holds
the admin role; the server-wide `/api` limiter (ceiling 100) rejects the
101st request from any caller, admin or not, and the middleware-module
`limiter`'s skip predicate returns false for every request. -/
theorem c2_rate_limit_windows :
    recipeGenerationLimiter.max = 10 ∧
    apiLimiter.max = 100 ∧
    recipeGenerationLimiter.windowMs = 15 * 60 * 1000 ∧
    apiLimiter.windowMs = 15 * 60 * 1000 ∧
    recipeGenerationLimiter.statusOnLimit = 429 ∧
    limiter.statusOnLimit = 429 ∧
    (∀ req : ApiRequest, recipeGenerationLimiter.skip req = false →
      runLimiter recipeGenerationLimiter [] (List.replicate 11 req) =
        List.replicate 10 false ++ [true]) ∧
    (∀ (req : ApiRequest) (u : UserClaims), req.user = some u →
      u.role = some "admin" →
      ∀ counts, limiterStep recipeGenerationLimiter counts req =
        (counts, false)) ∧
    (∀ req : ApiRequest,
      runLimiter apiLimiter [] (List.replicate 101 req) =
        List.replicate 100 false ++ [true]) ∧
    (∀ req : ApiRequest, limiter.skip req = false) := by
  refine ⟨rfl, rfl, rfl, rfl, rfl, rfl, ?_, ?_, ?_, fun req => rfl⟩
  · intro req h
    exact runLimiter_ceiling recipeGenerationLimiter req h
  · intro req u hu hrole counts
    refine limiterStep_skip _ _ _ ?_
    simp [recipeGenerationLimiter, hu, hrole]
  · intro req
    exact runLimiter_ceiling apiLimiter req rfl

/-- C2 counterexample: under the middleware-module `limiter` (a cited source
of the claim) a caller whose identity has the admin role is not exempt: its
11th request within the window is rejected like anyone else's, contradicting
"the counter is bypassed entirely" for admin identities. -/
theorem c2_admin_not_bypassed :
    adminRequest.user = some { role := some "admin", exp := none } ∧
    runLimiter limiter [] (List.replicate 11 adminRequest) =
      List.replicate 10 false ++ [true] :=
  ⟨rfl, by decide⟩

/-- C2 witness: a non-admin caller's 11 requests on the generation route are
allowed 10 times then rejected. -/
theorem c2_witness :
    runLimiter recipeGenerationLimiter [] (List.replicate 11 plainRequest) =
      List.replicate 10 false ++ [true] :=
  c2_rate_limit_windows.2.2.2.2.2.2.1 plainRequest rfl

/-- C9: the router's generate chain runs no token verification before the
rate limiter (the chain is limiter-then-handler), so the request reaching
the limiter carries no `req.user`; the limiter's skip predicate is therefore
false for every request, and every caller — including any would-be admin —
is counted and rejected on the 11th request of a window. -/
theorem c9_limiter_never_skipped :
    generatePipeline = [MwStage.rateLimitStage, MwStage.handlerStage] ∧
    decide (MwStage.verifyTokenStage ∈ generatePipeline) = false ∧
    (∀ ip, (routerEntryRequest ip).user = none) ∧
    (∀ ip, recipeGenerationLimiter.skip (routerEntryRequest ip) = false) ∧
    (∀ ip, runLimiter recipeGenerationLimiter []
        (List.replicate 11 (routerEntryRequest ip)) =
      List.replicate 10 false ++ [true]) := by
  refine ⟨rfl, by decide, fun ip => rfl, fun ip => rfl, fun ip => ?_⟩
  exact runLimiter_ceiling recipeGenerationLimiter (routerEntryRequest ip) rfl

/-- All six validation checks of the controller generation endpoint pass. -/
def genValidationsPass (body : GenBody) : Bool :=
  !(badIngredientsShape body.ingredients) &&
  !(hasBlankIngredient body.ingredients) &&
  !(truthy body.cuisineType && !(isStrOpt body.cuisineType)) &&
  !(truthy body.dietaryRestrictions && !(isArray body.dietaryRestrictions)) &&
  !(truthy body.servings &&
      (!(isNumOpt body.servings) || decide (numValOpt body.servings < 1))) &&
  !(truthy body.cookingTime &&
      (!(isNumOpt body.cookingTime) || decide (numValOpt body.cookingTime < 0)))

/-- A valid generation payload used by witnesses. -/
def validGenBody : GenBody :=
  { ingredients := some (.arr [.str "rice"]), cuisineType := none,
    dietaryRestrictions := none, servings := none, cookingTime := none }

/-- C3: on a validated payload, an unconfigured provider key short-circuits
with a 500 before the provider call; a thrown provider error is mapped by
precedence — message mentioning the API key → 401, else message mentioning
quota → 429, else a refused/timed-out connection code → 503, else 500 whose
`error` body field carries the underlying message exactly in development
(hence never in production). -/
theorem c3_provider_failure_mapping :
    ∀ (key env : Option String) (body : GenBody),
      genValidationsPass body = true →
      (truthyStr key = false → ∀ outcome,
        generateRecipe key env outcome body =
          { status := 500, success := false,
            message := some "Gemini API key is not configured",
            errorField := none, providerCalled := false }) ∧
      (truthyStr key = true → ∀ e : JsError,
        ((truthyStr e.message && strIncludes (e.message.getD "") "API key") = true →
          (generateRecipe key env (.jsError e) body).status = 401 ∧
          (generateRecipe key env (.jsError e) body).success = false ∧
          (generateRecipe key env (.jsError e) body).providerCalled = true) ∧
        ((truthyStr e.message && strIncludes (e.message.getD "") "API key") = false →
         (truthyStr e.message && strIncludes (e.message.getD "") "quota") = true →
          (generateRecipe key env (.jsError e) body).status = 429 ∧
          (generateRecipe key env (.jsError e) body).success = false) ∧
        ((truthyStr e.message && strIncludes (e.message.getD "") "API key") = false →
         (truthyStr e.message && strIncludes (e.message.getD "") "quota") = false →
         (e.code == some "ECONNREFUSED" || e.code == some "ETIMEDOUT") = true →
          (generateRecipe key env (.jsError e) body).status = 503 ∧
          (generateRecipe key env (.jsError e) body).success = false) ∧
        ((truthyStr e.message && strIncludes (e.message.getD "") "API key") = false →
         (truthyStr e.message && strIncludes (e.message.getD "") "quota") = false →
         (e.code == some "ECONNREFUSED" || e.code == some "ETIMEDOUT") = false →
          (generateRecipe key env (.jsError e) body).status = 500 ∧
          (generateRecipe key env (.jsError e) body).success = false ∧
          (generateRecipe key env (.jsError e) body).errorField =
            (if env == some "development" then e.message else none) ∧
          (env = some "production" →
            (generateRecipe key env (.jsError e) body).errorField = none))) := by
  intro key env body hv
  simp only [genValidationsPass, Bool.and_eq_true, Bool.not_eq_true'] at hv
  obtain ⟨⟨⟨⟨⟨h1, h2⟩, h3⟩, h4⟩, h5⟩, h6⟩ := hv
  constructor
  · intro hkey outcome
    unfold generateRecipe
    simp [h1, h2, h3, h4, h5, h6, hkey]
  · intro hkey e
    have hred : ∀ outcome, generateRecipe key env outcome body =
        match outcome with
        | .jsError e2 => mapGenError env e2
        | .text s =>
          if s == "" then
            { status := 500, success := false,
              message := some "Failed to generate recipe from Gemini API",
              errorField := none, providerCalled := true }
          else
            { status := 200, success := true, message := none,
              errorField := none, providerCalled := true } := by
      intro outcome
      unfold generateRecipe
      simp [h1, h2, h3, h4, h5, h6, hkey]
    rw [show generateRecipe key env (.jsError e) body = mapGenError env e from
      hred (.jsError e)]
    refine ⟨?_, ?_, ?_, ?_⟩
    · intro ha
      unfold mapGenError
      simp [ha]
    · intro ha hq
      unfold mapGenError
      simp [ha, hq]
    · intro ha hq hc
      unfold mapGenError
      simp [ha, hq, hc]
    · intro ha hq hc
      unfold mapGenError
      simp only [ha, hq, hc, Bool.false_eq_true, if_false]
      refine ⟨by trivial, by trivial, by trivial, ?_⟩
      intro henv
      subst henv
      have hpd : ((some "production" : Option String) ==
          some "development") = false := by decide
      rw [hpd]
      rfl

/-- C3 witness: with no API key configured, a validated request yields a 500
and the provider is never called. -/
theorem c3_witness :
    generateRecipe none none (.text "irrelevant") validGenBody =
      { status := 500, success := false,
        message := some "Gemini API key is not configured",
        errorField := none, providerCalled := false } :=
  (c3_provider_failure_mapping none none validGenBody (by decide)).1 rfl
    (.text "irrelevant")

/-- C4: on an auth-gated route, an absent bearer token yields 401 before the
handler; any verification failure — malformed token, bad signature
(wrong secret or altered payload), or expired claim — yields 401; control
reaches the next handler exactly when verification succeeds, and then the
decoded claim set is attached. -/
theorem c4_auth_gate :
    ∀ (env : Option String) (now : Nat) (decodeTok : String → JwtToken)
      (auth : Option String),
      (extractToken auth = none →
        verifyToken env now decodeTok auth =
          .respond 401 false "No token provided. Authorization denied.") ∧
      (∀ tstr, extractToken auth = some tstr →
        (∀ err, jwtVerify now (effectiveSecret env) (decodeTok tstr) =
            .error err →
          verifyToken env now decodeTok auth =
            .respond 401 false "Token is not valid.") ∧
        (∀ claims, jwtVerify now (effectiveSecret env) (decodeTok tstr) =
            .ok claims →
          verifyToken env now decodeTok auth = .next claims)) ∧
      (∀ claims, verifyToken env now decodeTok auth = .next claims →
        ∃ tstr, extractToken auth = some tstr ∧
          jwtVerify now (effectiveSecret env) (decodeTok tstr) = .ok claims) ∧
      (∀ raw, jwtVerify now (effectiveSecret env) (JwtToken.malformed raw) =
        .error "jwt malformed") ∧
      (∀ p k q, k ≠ effectiveSecret env ∨ q ≠ p →
        jwtVerify now (effectiveSecret env) (.signed p k q) =
          .error "invalid signature") ∧
      (∀ p q e, q = p → p.exp = some e → e ≤ now →
        jwtVerify now (effectiveSecret env) (.signed p (effectiveSecret env) q) =
          .error "jwt expired") := by
  intro env now decodeTok auth
  refine ⟨?_, ?_, ?_, fun raw => rfl, ?_, ?_⟩
  · intro h
    simp only [verifyToken, h]
  · intro tstr h
    constructor
    · intro err herr
      simp only [verifyToken, h, herr]
    · intro claims hok
      simp only [verifyToken, h, hok]
  · intro claims hnext
    cases hx : extractToken auth with
    | none =>
      simp only [verifyToken, hx] at hnext
      cases hnext
    | some tstr =>
      simp only [verifyToken, hx] at hnext
      cases hv : jwtVerify now (effectiveSecret env) (decodeTok tstr) with
      | error e =>
        simp only [hv] at hnext
        cases hnext
      | ok c =>
        simp only [hv] at hnext
        cases hnext
        exact ⟨tstr, rfl, hv⟩
  · intro p k q hcond
    have hb : (k == effectiveSecret env && decide (q = p)) = false := by
      rcases hcond with h | h <;> simp [h]
    simp only [jwtVerify, hb, Bool.false_eq_true, if_false]
  · intro p q e hq hpe hle
    subst hq
    unfold jwtVerify
    simp [hpe, hle]

/-- Claims carried by the demo token of the C4 witness. -/
def demoClaims : UserClaims := { role := some "user", exp := none }

/-- Decoding map of the C4 witness: one well-signed token, everything else
malformed. -/
def demoDecode : String → JwtToken := fun s =>
  if s == "goodtoken" then .signed demoClaims "shh" demoClaims
  else .malformed s

/-- C4 witness: a well-signed unexpired bearer token passes the middleware
and its decoded claims are attached. -/
theorem c4_witness :
    verifyToken (some "shh") 0 demoDecode (some "Bearer goodtoken") =
      .next demoClaims :=
  ((c4_auth_gate (some "shh") 0 demoDecode
      (some "Bearer goodtoken")).2.1 "goodtoken" (by decide)).2 demoClaims
    rfl

/-- C5 (amended): every `GET /api/recipes` response is a 200 envelope whose
pagination `limit` is the parsed requested limit clamped to at most 100
(`limit=500` serves 100); `offset` is parsed and echoed without any
validation, so a negative offset is accepted rather than rejected. -/
theorem c5_limit_clamped_offset_echoed :
    (∀ limitQ offsetQ, (listRecipes limitQ offsetQ).status = 200 ∧
      (listRecipes limitQ offsetQ).success = true) ∧
    (∀ s offsetQ n, parseIntJS s = some n →
      (listRecipes (some s) offsetQ).paginationLimit = some (min n 100)) ∧
    (∀ limitQ offsetQ n,
      (listRecipes limitQ offsetQ).paginationLimit = some n → n ≤ 100) ∧
    (∀ limitQ s,
      (listRecipes limitQ (some s)).paginationOffset = parseIntJS s) := by
  refine ⟨fun a b => ⟨rfl, rfl⟩, ?_, ?_, fun a s => rfl⟩
  · intro s offsetQ n h
    simp [listRecipes, h, jsMinHundred]
  · intro limitQ offsetQ n h
    cases limitQ with
    | none =>
      simp [listRecipes, jsMinHundred] at h
      omega
    | some s =>
      cases hp : parseIntJS s with
      | none =>
        simp [listRecipes, hp, jsMinHundred] at h
      | some m =>
        simp [listRecipes, hp, jsMinHundred] at h
        omega

/-- C5 counterexample: `GET /api/recipes?limit=20&offset=-5` is served 200
with the negative offset echoed in the pagination block — no validation
rejects it. -/
theorem c5_negative_offset_accepted :
    listRecipes (some "20") (some "-5") =
      { status := 200, success := true, paginationLimit := some 20,
        paginationOffset := some (-5), total := 0 } := by
  decide

/-- C5 witness: `limit=500` is served with an effective limit of 100. -/
theorem c5_witness :
    (listRecipes (some "500") (some "0")).paginationLimit = some 100 := by
  have h := c5_limit_clamped_offset_echoed.2.1 "500" (some "0") 500 (by decide)
  simpa using h

/-- The controller's four optional-field checks, with the JS truthiness
guard each of them carries. -/
def optionalFieldViolation (body : GenBody) : Bool :=
  (truthy body.cuisineType && !(isStrOpt body.cuisineType)) ||
  (truthy body.dietaryRestrictions && !(isArray body.dietaryRestrictions)) ||
  (truthy body.servings &&
    (!(isNumOpt body.servings) || decide (numValOpt body.servings < 1))) ||
  (truthy body.cookingTime &&
    (!(isNumOpt body.cookingTime) || decide (numValOpt body.cookingTime < 0)))

/-- C6 (amended): the controller generation endpoint rejects a request with
400 before any provider call whenever an optional field holds a truthy
invalid value; a falsy invalid value (0, false, empty string, null) is
treated as absent by the `field && ...` guards and does not trigger
rejection. -/
theorem c6_truthy_invalid_optionals_rejected :
    ∀ (key env : Option String) (outcome : ProviderOutcome) (body : GenBody),
      optionalFieldViolation body = true →
      (generateRecipe key env outcome body).status = 400 ∧
      (generateRecipe key env outcome body).success = false ∧
      (generateRecipe key env outcome body).providerCalled = false := by
  intro key env outcome body h
  unfold generateRecipe
  cases h1 : badIngredientsShape body.ingredients
  · cases h2 : hasBlankIngredient body.ingredients
    · cases h3 : (truthy body.cuisineType && !(isStrOpt body.cuisineType))
      · cases h4 : (truthy body.dietaryRestrictions &&
            !(isArray body.dietaryRestrictions))
        · cases h5 : (truthy body.servings &&
              (!(isNumOpt body.servings) ||
                decide (numValOpt body.servings < 1)))
          · cases h6 : (truthy body.cookingTime &&
                (!(isNumOpt body.cookingTime) ||
                  decide (numValOpt body.cookingTime < 0)))
            · rw [optionalFieldViolation, h3, h4, h5, h6] at h
              simp at h
            · simp [h1, h2, h3, h4, h5, h6]
          · simp [h1, h2, h3, h4, h5]
        · simp [h1, h2, h3, h4]
      · simp [h1, h2, h3]
    · simp [h1, h2]
  · simp [h1]

/-- The payload `{ingredients: ["rice"], servings: 0}`: servings present but
not a positive number. -/
def zeroServingsBody : GenBody :=
  { ingredients := some (.arr [.str "rice"]), cuisineType := none,
    dietaryRestrictions := none, servings := some (.num 0),
    cookingTime := none }

/-- C6 counterexample: `servings: 0` is present and not a positive number,
yet the controller accepts the request and calls the provider (0 is falsy,
so the `servings && ...` guard skips the check) — a 200, not a 400. -/
theorem c6_zero_servings_accepted :
    zeroServingsBody.servings = some (.num 0) ∧
    generateRecipe (some "key") none (.text "a recipe") zeroServingsBody =
      { status := 200, success := true, message := none, errorField := none,
        providerCalled := true } :=
  ⟨rfl, by decide⟩

/-- The payload `{ingredients: ["rice"], cookingTime: -3}`: a truthy invalid
optional value. -/
def negativeCookBody : GenBody :=
  { ingredients := some (.arr [.str "rice"]), cuisineType := none,
    dietaryRestrictions := none, servings := none,
    cookingTime := some (.num (-3)) }

/-- C6 witness: a negative `cookingTime` is truthy and invalid, so the
request is rejected with 400 and the provider is not called. -/
theorem c6_witness :
    (generateRecipe (some "key") none (.text "a recipe")
        negativeCookBody).status = 400 ∧
    (generateRecipe (some "key") none (.text "a recipe")
        negativeCookBody).success = false ∧
    (generateRecipe (some "key") none (.text "a recipe")
        negativeCookBody).providerCalled = false :=
  c6_truthy_invalid_optionals_rejected (some "key") none (.text "a recipe")
    negativeCookBody (by decide)

/-- C7: the deferred-request queue drains strictly sequentially in FIFO
order — the started ids are exactly the enqueued ids in order (each started
once: no retry, deduplication or reordering), every item both starts and
settles, every trace prefix has at most one unsettled start (an item starts
only after the previous one settled; no concurrency), and a rejected item is
logged while all later items still run. -/
theorem c7_sequential_fifo_queue :
    (∀ q : List QItem, startedIds (executeQueue q) = q.map QItem.id) ∧
    (∀ q : List QItem, startTally (executeQueue q) = q.length ∧
      settleTally (executeQueue q) = q.length) ∧
    (∀ (q : List QItem) (pre : List QEvent), pre <+: executeQueue q →
      settleTally pre ≤ startTally pre ∧
      startTally pre ≤ settleTally pre + 1) ∧
    (∀ (q : List QItem) (i : QItem), i ∈ q → i.succeeds = false →
      QEvent.logError i.id ∈ executeQueue q) :=
  ⟨startedIds_executeQueue, tallies_executeQueue, executeQueue_balance,
    logError_of_failed⟩

/-- A three-item queue whose middle request rejects. -/
def demoQueue : List QItem := [⟨1, true⟩, ⟨2, false⟩, ⟨3, true⟩]

/-- C7 witness: on a concrete queue with a failing middle item, the started
ids are FIFO, the failure is logged, and a one-start prefix is balanced. -/
theorem c7_witness :
    startedIds (executeQueue demoQueue) = [1, 2, 3] ∧
    QEvent.logError 2 ∈ executeQueue demoQueue ∧
    (settleTally [QEvent.start 1] ≤ startTally [QEvent.start 1] ∧
      startTally [QEvent.start 1] ≤ settleTally [QEvent.start 1] + 1) :=
  ⟨by have h := c7_sequential_fifo_queue.1 demoQueue; simpa [demoQueue] using h,
    c7_sequential_fifo_queue.2.2.2 demoQueue ⟨2, false⟩ (by decide) rfl,
    c7_sequential_fifo_queue.2.2.1 demoQueue [QEvent.start 1]
      ⟨[QEvent.settle 1 true, QEvent.start 2, QEvent.settle 2 false,
        QEvent.logError 2, QEvent.start 3, QEvent.settle 3 true], rfl⟩⟩

/-- The payload `{ingredients: ["rice", "beans"], servings: 4,
cookingTimePreference: "quick"}`. -/
def quickBody : RouterBody :=
  { ingredients := some (.arr [.str "rice", .str "beans"]),
    dietaryRestrictions := none, servings := some (.num 4),
    cookingTimePreference := some (.str "quick"), cuisineType := none }

/-- C8: the router generation endpoint serves the quick/4-servings example
with a 200 success whose stub recipe has `estimatedCookingTime` 15 and
echoes `servings` 4; in general any served stub carries 15/30/60 minutes for
the quick/medium/long preference respectively. -/
theorem c8_stub_cooking_time :
    (routerGenerate quickBody).status = 200 ∧
    (routerGenerate quickBody).success = true ∧
    (routerGenerate quickBody).recipe.map RouterRecipe.estimatedCookingTime =
      some 15 ∧
    (routerGenerate quickBody).recipe.map RouterRecipe.servings =
      some (.num 4) ∧
    (∀ (body : RouterBody) (r : RouterRecipe),
      (routerGenerate body).recipe = some r →
        (effPref body = .str "quick" → r.estimatedCookingTime = 15) ∧
        (effPref body = .str "medium" → r.estimatedCookingTime = 30) ∧
        (effPref body = .str "long" → r.estimatedCookingTime = 60)) := by
  refine ⟨rfl, rfl, rfl, rfl, ?_⟩
  intro body r h
  simp only [routerGenerate] at h
  split at h
  · simp at h
  · split at h
    · simp at h
    · split at h
      · simp at h
      · simp only [Option.some.injEq] at h
        subst h
        refine ⟨?_, ?_, ?_⟩ <;> intro hp <;> simp [hp, prefMinutes]

/-- The stub recipe the router serves for `quickBody`. -/
def quickRecipeStub : RouterRecipe :=
  { name := "Generated Recipe",
    ingredientNames := [.str "rice", .str "beans"],
    estimatedCookingTime := 15, difficulty := "medium",
    servings := .num 4, cuisineType := .str "any",
    dietaryRestrictions := .arr [] }

/-- C8 witness: the general mapping applied to the concrete quick payload
gives 15 minutes. -/
theorem c8_witness : quickRecipeStub.estimatedCookingTime = 15 :=
  (c8_stub_cooking_time.2.2.2.2 quickBody quickRecipeStub rfl).1 rfl

/-- C10: with `JWT_SECRET` unset the middleware verifies against the
hardcoded fallback `'your-secret-key'`, and any unexpired token validly
signed with that literal is accepted, its decoded claims attached, and
control continues. -/
theorem c10_default_secret_fallback :
    effectiveSecret none = "your-secret-key" ∧
    (∀ (now : Nat) (decodeTok : String → JwtToken) (auth : Option String)
      (tstr : String) (p : UserClaims),
      extractToken auth = some tstr →
      decodeTok tstr = .signed p "your-secret-key" p →
      (∀ e, p.exp = some e → now < e) →
      verifyToken none now decodeTok auth = .next p) := by
  refine ⟨rfl, ?_⟩
  intro now decodeTok auth tstr p hx hdec hexp
  have hok : jwtVerify now (effectiveSecret none) (decodeTok tstr) =
      .ok p := by
    rw [hdec]
    cases hpe : p.exp with
    | none => simp [jwtVerify, effectiveSecret, hpe]
    | some e =>
      have hlt := hexp e hpe
      simp [jwtVerify, effectiveSecret, hpe, Nat.not_le.mpr hlt]
  simp only [verifyToken, hx, hok]

/-- Claims of the C10 witness token. -/
def fallbackClaims : UserClaims := { role := some "admin", exp := none }

/-- Decoding map of the C10 witness: one token well-signed with the
hardcoded fallback secret. -/
def fallbackDecode : String → JwtToken := fun s =>
  if s == "fallback" then
    .signed fallbackClaims "your-secret-key" fallbackClaims
  else .malformed s

/-- C10 witness: with no `JWT_SECRET`, the fallback-signed token passes and
its claims are attached. -/
theorem c10_witness :
    verifyToken none 5 fallbackDecode (some "Bearer fallback") =
      .next fallbackClaims :=
  c10_default_secret_fallback.2 5 fallbackDecode (some "Bearer fallback")
    "fallback" fallbackClaims (by decide) (by decide) (fun e he => nomatch he)

end NutriChef
